import Mathlib

set_option autoImplicit false
set_option maxRecDepth 8192

namespace SmartRent

/-!
Shallow embedding of the SIWE (Sign-In With Ethereum) authentication core of
the SmartRent backend:

* app/core/siwe_auth.py   — nonce store, message formatting, signature
  verification, JWT mint/validate;
* app/core/security.py    — bearer-token extraction and the request-scoped
  dependencies;
* app/core/middleware.py  — the best-effort authentication pre-pass;
* app/api/routes/wallet_auth.py — the address-format validator.

Modelling conventions:
* `time.time()` is passed in as an explicit `now : Nat` (seconds);
* `secrets.token_hex(16)` and `datetime.utcnow().isoformat()` are passed in
  as explicit `nonce` / `timestamp` arguments (the code treats them as
  opaque strings);
* cryptographic recovery (`eth_account.Account.recover_message` wrapped in
  try/except) is an oracle parameter
  `recover : String → String → Option String`, `none` meaning the library
  raised;
* `jwt.decode` is an oracle `decode : String → JwtDecodeOutcome` whose three
  outcomes mirror the code's except clauses;
* the global dict `_nonce_store` is an association list threaded through
  each operation.
-/

/-- Python `str.lower` for the ASCII strings this service handles
(hex addresses); models `address.lower()` / `recovered_address.lower()`. -/
def pyLower (s : String) : String := String.mk (s.data.map Char.toLower)

/-- Constant `NONCE_EXPIRY_SECONDS = 300` (siwe_auth.py). -/
def NONCE_EXPIRY_SECONDS : Nat := 300

/-- Setting `settings.POLYGON_CHAIN_ID` default value 137 (config.py). -/
def POLYGON_CHAIN_ID : Nat := 137

/-- One value of the `_nonce_store` dict:
`{"address": ..., "created_at": ..., "used": ..., "message": ...}`. -/
structure Challenge where
  address : String
  created_at : Nat
  used : Bool
  message : String
deriving Repr, DecidableEq

/-- The global `_nonce_store : Dict[str, Dict]`, keyed by nonce. -/
abbrev NonceStore := List (String × Challenge)

/-- Python dict lookup `_nonce_store[nonce]` / membership `nonce in _nonce_store`. -/
def lookupNonce : NonceStore → String → Option Challenge
  | [], _ => none
  | (k, c) :: rest, nonce => if k = nonce then some c else lookupNonce rest nonce

/-- Python `del _nonce_store[nonce]`. -/
def eraseNonce : NonceStore → String → NonceStore
  | [], _ => []
  | (k, c) :: rest, nonce =>
      if k = nonce then eraseNonce rest nonce else (k, c) :: eraseNonce rest nonce

/-- Python `_nonce_store[nonce]["used"] = True`. -/
def markUsed : NonceStore → String → NonceStore
  | [], _ => []
  | (k, c) :: rest, nonce =>
      if k = nonce then (k, { c with used := true }) :: markUsed rest nonce
      else (k, c) :: markUsed rest nonce

/-- Python dict assignment `_nonce_store[nonce] = {...}` (bind, overwriting). -/
def insertNonce (store : NonceStore) (nonce : String) (c : Challenge) : NonceStore :=
  (nonce, c) :: eraseNonce store nonce

/-- Function `_cleanup_expired_nonces`: remove every entry with
`current_time - data["created_at"] > NONCE_EXPIRY_SECONDS`. -/
def cleanup_expired_nonces (now : Nat) : NonceStore → NonceStore
  | [] => []
  | (k, c) :: rest =>
      if now - c.created_at > NONCE_EXPIRY_SECONDS then cleanup_expired_nonces now rest
      else (k, c) :: cleanup_expired_nonces now rest

/-- Function `create_siwe_message(address, nonce, timestamp)`: the f-string template,
with `domain`, `uri`, `version` and `chain_id` inlined as in the source. -/
def create_siwe_message (address nonce timestamp : String) : String :=
  "smartrent.app wants you to sign in with your Ethereum account:\n"
    ++ address
    ++ "\n\nSign in to SmartRent - Decentralized Real Estate Platform\n\nURI: https://smartrent.app\nVersion: 1\nChain ID: "
    ++ toString POLYGON_CHAIN_ID
    ++ "\nNonce: " ++ nonce
    ++ "\nIssued At: " ++ timestamp

/-- The dict returned by `generate_nonce`. -/
structure NonceResult where
  nonce : String
  message : String
  expires_in : Nat
deriving Repr, DecidableEq

/-- Function `generate_nonce(address)`: cleanup, render the message, store the
challenge under the fresh nonce with the address lower-cased, and return
nonce/message/expiry. The fresh nonce and the timestamp are explicit
arguments (random source and clock). -/
def generate_nonce (address nonce timestamp : String) (now : Nat)
    (store : NonceStore) : NonceStore × NonceResult :=
  let store1 := cleanup_expired_nonces now store
  let message := create_siwe_message address nonce timestamp
  let store2 := insertNonce store1 nonce ⟨pyLower address, now, false, message⟩
  (store2, ⟨nonce, message, NONCE_EXPIRY_SECONDS⟩)

/-- Function `verify_signature(message, signature)`: recover the signer through the
oracle and lower-case it; `none` when the library raised. -/
def verify_signature (recover : String → String → Option String)
    (message signature : String) : Option String :=
  match recover message signature with
  | some a => some (pyLower a)
  | none => none

/-- The outcomes of `verify_nonce_and_signature`, one constructor per
return-dict of the source (`ok` for success, the rest keyed by the error
string returned). -/
inductive VerifyResult where
  | ok (address : String)
  | invalidOrExpiredNonce
  | nonceAlreadyUsed
  | nonceExpired
  | invalidSignature
  | addressMismatch (expected got : String)
deriving Repr, DecidableEq

/-- Function `verify_nonce_and_signature(message, signature, nonce)`: membership,
used, expiry checks on the store, then signature recovery and address
comparison; marks the nonce used only on full success. -/
def verify_nonce_and_signature (recover : String → String → Option String)
    (message signature nonce : String) (now : Nat)
    (store : NonceStore) : NonceStore × VerifyResult :=
  match lookupNonce store nonce with
  | none => (store, .invalidOrExpiredNonce)
  | some nonce_data =>
    if nonce_data.used then (store, .nonceAlreadyUsed)
    else if now - nonce_data.created_at > NONCE_EXPIRY_SECONDS then
      (eraseNonce store nonce, .nonceExpired)
    else
      match verify_signature recover message signature with
      | none => (store, .invalidSignature)
      | some recovered_address =>
        if recovered_address ≠ nonce_data.address then
          (store, .addressMismatch nonce_data.address recovered_address)
        else
          (markUsed store nonce, .ok recovered_address)

/-- Is the character in `[0-9a-fA-F]`? (for the route's address regex). -/
def isHexChar (c : Char) : Bool :=
  c.isDigit || (97 ≤ c.toNat && c.toNat ≤ 102) || (65 ≤ c.toNat && c.toNat ≤ 70)

/-- Function `validate_eth_address` (wallet_auth.py): the regex
`0x` followed by exactly 40 hex characters; empty and non-matching
strings are rejected. -/
def validate_eth_address (address : String) : Bool :=
  match address.data with
  | '0' :: 'x' :: rest => rest.length == 40 && rest.all isHexChar
  | _ => false

/-- A decoded JWT claim set (a Python dict; the claims relevant here are
string-valued). -/
structure JwtPayload where
  claims : List (String × String)
deriving Repr, DecidableEq

/-- Python `payload.get(key)`. -/
def JwtPayload.get (p : JwtPayload) (k : String) : Option String :=
  (p.claims.find? (fun q => q.1 == k)).map (fun q => q.2)

/-- Python truthiness of the payload dict (`if payload:`): an empty dict is
falsy. -/
def JwtPayload.truthy (p : JwtPayload) : Bool :=
  !p.claims.isEmpty

/-- The three ways `jwt.decode(token, SECRET_KEY, algorithms=[ALGORITHM])`
can come back, mirroring the except clauses of `verify_jwt_token`: a
payload, `jwt.ExpiredSignatureError` (past `exp`), or
`jwt.InvalidTokenError` (any signature or structural failure). The real
decoder is external; it is passed in as an oracle. -/
inductive JwtDecodeOutcome where
  | ok (payload : JwtPayload)
  | expiredSignatureError
  | invalidTokenError
deriving Repr, DecidableEq

/-- Function `verify_jwt_token(token)`: returns the payload if valid, `None` on
either `ExpiredSignatureError` or `InvalidTokenError`. -/
def verify_jwt_token (decode : String → JwtDecodeOutcome) (token : String) :
    Option JwtPayload :=
  match decode token with
  | .ok payload => some payload
  | .expiredSignatureError => none
  | .invalidTokenError => none

/-- Function `get_address_from_token(token)` (siwe_auth.py): `payload.get("address")`
when the payload is truthy, else `None`. -/
def get_address_from_token (decode : String → JwtDecodeOutcome)
    (token : String) : Option String :=
  match verify_jwt_token decode token with
  | some payload => if payload.truthy then payload.get "address" else none
  | none => none

/-- Python `str.split(" ")` (explicit separator: empty fields kept). -/
def splitChar (sep : Char) : List Char → List (List Char)
  | [] => [[]]
  | c :: rest =>
      let r := splitChar sep rest
      if c = sep then [] :: r
      else
        match r with
        | [] => [[c]]
        | w :: ws => (c :: w) :: ws

/-- Python `s.split(" ")` on strings. -/
def pySplitSpace (s : String) : List String :=
  (splitChar ' ' s.data).map String.mk

/-- Python `str.strip()`: drop whitespace from both ends. -/
def pyStrip (s : String) : String :=
  String.mk (((s.data.dropWhile Char.isWhitespace).reverse.dropWhile
    Char.isWhitespace).reverse)

/-- Function `extract_bearer_token(authorization_header)` (security.py): parse a
Bearer token from the Authorization header; raising `HTTPException` is the
`.error detail` branch. -/
def extract_bearer_token (authorization_header : Option String) :
    Except String String :=
  match authorization_header with
  | none => .error "Authorization header missing"
  | some h =>
    if h = "" then .error "Authorization header missing"
    else
      let parts := pySplitSpace h
      if parts.length != 2 || pyLower (parts.headD "") != "bearer" then
        .error "Invalid authorization header format. Use: Bearer <token>"
      else
        let token := pyStrip (parts.getD 1 "")
        if token = "" then .error "Missing bearer token"
        else .ok token

/-- State `request.state` as initialised and filled in by
`WalletAuthMiddleware.dispatch`. -/
structure RequestState where
  wallet_address : Option String
  is_authenticated : Bool
  token_payload : Option JwtPayload
deriving Repr, DecidableEq

/-- The three state fields as initialised at the top of `dispatch`. -/
def initialRequestState : RequestState := ⟨none, false, none⟩

/-- The request state after the body of `WalletAuthMiddleware.dispatch`:
absent or falsy header, extraction failure (caught by except), failed
verification, or a falsy payload all leave the initial unauthenticated
state. -/
def dispatchState (decode : String → JwtDecodeOutcome)
    (authorization : Option String) : RequestState :=
  match authorization with
  | none => initialRequestState
  | some auth =>
    if auth = "" then initialRequestState
    else
      match extract_bearer_token (some auth) with
      | .error _ => initialRequestState
      | .ok token =>
        match verify_jwt_token decode token with
        | some payload =>
          if payload.truthy then ⟨payload.get "address", true, some payload⟩
          else initialRequestState
        | none => initialRequestState

/-- Method `WalletAuthMiddleware.dispatch`: compute the request state, then always
forward to `call_next` and return its response unchanged. -/
def dispatch {R : Type} (decode : String → JwtDecodeOutcome)
    (authorization : Option String) (call_next : RequestState → R) : R :=
  call_next (dispatchState decode authorization)

/-- The user dict `{"address": ..., "payload": ...}` returned by the auth
dependencies in security.py. -/
structure UserDict where
  address : Option String
  payload : Option JwtPayload
deriving Repr, DecidableEq

/-- Function `get_optional_user(request)` (security.py): returns the user dict when
the middleware marked the request authenticated, else `None`; a FastAPI
dependency may alternatively raise `HTTPException` (the `.error` branch),
but this one has no raise in its body. The `Option RequestState` argument
models the `hasattr(request.state, ...)` check. -/
def get_optional_user (state : Option RequestState) :
    Except String (Option UserDict) :=
  match state with
  | some st =>
    if st.is_authenticated then .ok (some ⟨st.wallet_address, st.token_payload⟩)
    else .ok none
  | none => .ok none

/-!
Two-thread interleaving model of `verify_nonce_and_signature` for the
concurrency claim. The Python function takes no lock, so a preemptive
runtime may interleave two calls between any two statements; the model
splits a call at the coarsest boundary that matters: the store checks
(membership / used / expiry) and the recovery-compare-mark part, which are
separated in the source by the signature-recovery call.
-/

/-- Program counter of one in-flight `verify_nonce_and_signature` call. -/
inductive VPhase where
  | start
  | checked (nonce_data : Challenge)
  | finished (result : VerifyResult)
deriving Repr, DecidableEq

/-- One in-flight call: its arguments and program counter. -/
structure VThread where
  message : String
  signature : String
  nonce : String
  phase : VPhase
deriving Repr, DecidableEq

/-- One atomic step of a call against the shared store: from `start`,
perform the membership/used/expiry checks; from `checked`, perform
signature recovery, the address comparison and (on success) the
mark-used write. -/
def threadStep (recover : String → String → Option String) (now : Nat)
    (t : VThread) (store : NonceStore) : VThread × NonceStore :=
  match t.phase with
  | .finished _ => (t, store)
  | .start =>
    match lookupNonce store t.nonce with
    | none => ({ t with phase := .finished .invalidOrExpiredNonce }, store)
    | some nonce_data =>
      if nonce_data.used then ({ t with phase := .finished .nonceAlreadyUsed }, store)
      else if now - nonce_data.created_at > NONCE_EXPIRY_SECONDS then
        ({ t with phase := .finished .nonceExpired }, eraseNonce store t.nonce)
      else ({ t with phase := .checked nonce_data }, store)
  | .checked nonce_data =>
    match verify_signature recover t.message t.signature with
    | none => ({ t with phase := .finished .invalidSignature }, store)
    | some recovered_address =>
      if recovered_address ≠ nonce_data.address then
        ({ t with phase := .finished (.addressMismatch nonce_data.address recovered_address) },
          store)
      else
        ({ t with phase := .finished (.ok recovered_address) }, markUsed store t.nonce)

/-- Two concurrent calls sharing the nonce store. -/
structure TwoThreads where
  t1 : VThread
  t2 : VThread
  store : NonceStore
deriving Repr, DecidableEq

/-- Run one scheduler choice: `false` steps the first call, `true` the
second. -/
def schedStep (recover : String → String → Option String) (now : Nat)
    (s : TwoThreads) (choice : Bool) : TwoThreads :=
  if choice then
    let r := threadStep recover now s.t2 s.store
    { s with t2 := r.1, store := r.2 }
  else
    let r := threadStep recover now s.t1 s.store
    { s with t1 := r.1, store := r.2 }

/-- Run a whole schedule of choices. -/
def runSchedule (recover : String → String → Option String) (now : Nat)
    (s : TwoThreads) : List Bool → TwoThreads
  | [] => s
  | c :: cs => runSchedule recover now (schedStep recover now s c) cs

/-- The fixed prefix of every rendered SIWE message, up to the address. -/
def siweMessageHeader : String :=
  "smartrent.app wants you to sign in with your Ethereum account:\n"

/-- Everything the rendered SIWE message appends after the address. -/
def siweMessageTail (nonce timestamp : String) : String :=
  "\n\nSign in to SmartRent - Decentralized Real Estate Platform\n\nURI: https://smartrent.app\nVersion: 1\nChain ID: "
    ++ toString POLYGON_CHAIN_ID ++ "\nNonce: " ++ nonce ++ "\nIssued At: " ++ timestamp

/-- Every bound address reachable in the nonce store is in the image of
`str.lower` (lower-case normalized). -/
def AddressNormalized (store : NonceStore) : Prop :=
  ∀ p ∈ store, ∃ t, p.2.address = pyLower t

/-! Concrete sample inputs used by witnesses and counterexamples. -/

/-- A recovery oracle whose signer for the signature `goodsig` is `0xAB`,
failing on every other signature. -/
def recoverDemo : String → String → Option String := fun _ s =>
  if s = "goodsig" then some "0xAB" else none

/-- A store holding one fresh challenge under nonce `n1`, bound to `0xab`. -/
def storeDemo : NonceStore := [("n1", ⟨"0xab", 0, false, "m"⟩)]

/-- A fixed issuance timestamp string. -/
def timestampDemo : String := "2026-01-01T00:00:00Z"

/-- A message whose embedded `Nonce:` field is `deadbeef`, not `n1`. -/
def attackerMessage : String := create_siwe_message "0xAB" "deadbeef" timestampDemo

/-- A store holding the challenge issued for `0xAB` under nonce `n1`. -/
def storeC2 : NonceStore :=
  [("n1", ⟨pyLower "0xAB", 0, false, create_siwe_message "0xAB" "n1" timestampDemo⟩)]

/-- Recovery oracle for which `sig-over-attacker-message` is a valid
signature by `0xAB` over `attackerMessage` (and nothing else verifies). -/
def recoverC2 : String → String → Option String := fun m s =>
  if m = attackerMessage && s = "sig-over-attacker-message" then some "0xAB" else none

/-- A jwt.decode oracle: one valid token, one expired token, everything
else structurally invalid. -/
def decodeDemo : String → JwtDecodeOutcome := fun t =>
  if t = "valid-token" then .ok ⟨[("address", "0xab")]⟩
  else if t = "expired-token" then .expiredSignatureError
  else .invalidTokenError

/-- A syntactically valid mixed-case account address. -/
def addressDemo : String := "0xAbCdEf1234567890aBcDeF1234567890AbCdEf12"

/-- Recovery oracle whose signer for `sig-c4` is `addressDemo`. -/
def recoverC4 : String → String → Option String := fun _ s =>
  if s = "sig-c4" then some addressDemo else none

/-- Recovery oracle whose signer for `sig-c6` is `0xCD`. -/
def recoverC6 : String → String → Option String := fun _ s =>
  if s = "sig-c6" then some "0xCD" else none

/-! Helper lemmas about the store operations. -/

theorem lookupNonce_markUsed_self (store : NonceStore) (nonce : String) :
    lookupNonce (markUsed store nonce) nonce
      = (lookupNonce store nonce).map (fun c => { c with used := true }) := by
  induction store with
  | nil => rfl
  | cons p rest ih =>
    obtain ⟨k, c⟩ := p
    by_cases hk : k = nonce
    · simp [markUsed, lookupNonce, hk]
    · simp [markUsed, lookupNonce, hk, ih]

theorem lookupNonce_eraseNonce_self (store : NonceStore) (nonce : String) :
    lookupNonce (eraseNonce store nonce) nonce = none := by
  induction store with
  | nil => rfl
  | cons p rest ih =>
    obtain ⟨k, c⟩ := p
    by_cases hk : k = nonce
    · simp [eraseNonce, hk, ih]
    · simp [eraseNonce, lookupNonce, hk, ih]

theorem lookupNonce_insertNonce_self (store : NonceStore) (nonce : String)
    (c : Challenge) :
    lookupNonce (insertNonce store nonce c) nonce = some c := by
  simp [insertNonce, lookupNonce]

theorem mem_eraseNonce (store : NonceStore) (nonce : String)
    (p : String × Challenge) (hp : p ∈ eraseNonce store nonce) : p ∈ store := by
  induction store with
  | nil => simp [eraseNonce] at hp
  | cons q rest ih =>
    obtain ⟨k, c⟩ := q
    by_cases hk : k = nonce
    · simp only [eraseNonce, if_pos hk] at hp
      exact List.mem_cons_of_mem _ (ih hp)
    · simp only [eraseNonce, if_neg hk, List.mem_cons] at hp
      rcases hp with h | h
      · exact h ▸ List.mem_cons_self _ _
      · exact List.mem_cons_of_mem _ (ih h)

theorem mem_cleanup_expired_nonces (now : Nat) (store : NonceStore)
    (p : String × Challenge) (hp : p ∈ cleanup_expired_nonces now store) :
    p ∈ store := by
  induction store with
  | nil => simp [cleanup_expired_nonces] at hp
  | cons q rest ih =>
    obtain ⟨k, c⟩ := q
    by_cases hk : now - c.created_at > NONCE_EXPIRY_SECONDS
    · simp only [cleanup_expired_nonces, if_pos hk] at hp
      exact List.mem_cons_of_mem _ (ih hp)
    · simp only [cleanup_expired_nonces, if_neg hk, List.mem_cons] at hp
      rcases hp with h | h
      · exact h ▸ List.mem_cons_self _ _
      · exact List.mem_cons_of_mem _ (ih h)

theorem mem_markUsed_address (store : NonceStore) (nonce : String)
    (p : String × Challenge) (hp : p ∈ markUsed store nonce) :
    ∃ q ∈ store, p.2.address = q.2.address := by
  induction store with
  | nil => simp [markUsed] at hp
  | cons q rest ih =>
    obtain ⟨k, c⟩ := q
    by_cases hk : k = nonce
    · simp only [markUsed, if_pos hk, List.mem_cons] at hp
      rcases hp with h | h
      · exact ⟨(k, c), List.mem_cons_self _ _, by simp [h]⟩
      · obtain ⟨q, hq, hqa⟩ := ih h
        exact ⟨q, List.mem_cons_of_mem _ hq, hqa⟩
    · simp only [markUsed, if_neg hk, List.mem_cons] at hp
      rcases hp with h | h
      · exact ⟨(k, c), List.mem_cons_self _ _, by simp [h]⟩
      · obtain ⟨q, hq, hqa⟩ := ih h
        exact ⟨q, List.mem_cons_of_mem _ hq, hqa⟩

/-- Case analysis on `verify_nonce_and_signature`: its result is one of the
six branches of the source, and only the expiry branch deletes and only the
success branch marks the nonce used. -/
theorem verify_cases
    (recover : String → String → Option String)
    (message signature nonce : String) (now : Nat) (store : NonceStore) :
    verify_nonce_and_signature recover message signature nonce now store
        = (store, VerifyResult.invalidOrExpiredNonce)
      ∨ verify_nonce_and_signature recover message signature nonce now store
        = (store, VerifyResult.nonceAlreadyUsed)
      ∨ verify_nonce_and_signature recover message signature nonce now store
        = (eraseNonce store nonce, VerifyResult.nonceExpired)
      ∨ verify_nonce_and_signature recover message signature nonce now store
        = (store, VerifyResult.invalidSignature)
      ∨ (∃ e g, verify_nonce_and_signature recover message signature nonce now store
        = (store, VerifyResult.addressMismatch e g))
      ∨ (∃ a, verify_nonce_and_signature recover message signature nonce now store
        = (markUsed store nonce, VerifyResult.ok a)) := by
  unfold verify_nonce_and_signature
  cases hl : lookupNonce store nonce with
  | none => simp
  | some c =>
    dsimp only
    by_cases hu : c.used = true
    · simp [hu]
    · rw [if_neg hu]
      by_cases he : now - c.created_at > NONCE_EXPIRY_SECONDS
      · rw [if_pos he]; simp
      · rw [if_neg he]
        cases hs : verify_signature recover message signature with
        | none => simp
        | some r =>
          dsimp only
          by_cases hne : r ≠ c.address
          · rw [if_pos hne]
            exact Or.inr (Or.inr (Or.inr (Or.inr (Or.inl ⟨c.address, r, rfl⟩))))
          · rw [if_neg hne]
            exact Or.inr (Or.inr (Or.inr (Or.inr (Or.inr ⟨r, rfl⟩))))

/-- A finished call makes no further step. -/
theorem threadStep_finished (recover : String → String → Option String)
    (now : Nat) (m sg n : String) (r : VerifyResult) (store : NonceStore) :
    threadStep recover now ⟨m, sg, n, VPhase.finished r⟩ store
      = (⟨m, sg, n, VPhase.finished r⟩, store) := rfl

/-- Scheduling choice `false` steps the first call. -/
theorem schedStep_false (recover : String → String → Option String) (now : Nat)
    (t1 t2 : VThread) (store : NonceStore) :
    schedStep recover now ⟨t1, t2, store⟩ false
      = ⟨(threadStep recover now t1 store).1, t2,
         (threadStep recover now t1 store).2⟩ := rfl

/-- Scheduling choice `true` steps the second call. -/
theorem schedStep_true (recover : String → String → Option String) (now : Nat)
    (t1 t2 : VThread) (store : NonceStore) :
    schedStep recover now ⟨t1, t2, store⟩ true
      = ⟨t1, (threadStep recover now t2 store).1,
         (threadStep recover now t2 store).2⟩ := rfl

/-! Claim theorems. -/

/-- Claim C1 (confirmed). Replay protection: when a `verify` call consumes a
challenge successfully, the stored challenge flips from `used = false` to
`used = true`, and every later `verify` call presenting the same nonce —
whatever its message, signature, recovery oracle or time — fails with
`AlreadyUsed` and leaves the store unchanged, so the transition happens at
most once. -/
theorem consumed_challenge_replay_rejected
    (recover : String → String → Option String)
    (message signature nonce : String) (now : Nat)
    (store store' : NonceStore) (a : String)
    (h : verify_nonce_and_signature recover message signature nonce now store
          = (store', VerifyResult.ok a)) :
    (∃ c, lookupNonce store nonce = some c ∧ c.used = false ∧
        lookupNonce store' nonce = some { c with used := true }) ∧
    (∀ recover' message' signature' now',
      verify_nonce_and_signature recover' message' signature' nonce now' store'
        = (store', VerifyResult.nonceAlreadyUsed)) := by
  unfold verify_nonce_and_signature at h
  cases hl : lookupNonce store nonce with
  | none => rw [hl] at h; simp at h
  | some c =>
    rw [hl] at h
    dsimp only at h
    by_cases hu : c.used = true
    · simp [hu] at h
    · rw [if_neg hu] at h
      by_cases he : now - c.created_at > NONCE_EXPIRY_SECONDS
      · rw [if_pos he] at h; simp at h
      · rw [if_neg he] at h
        cases hs : verify_signature recover message signature with
        | none => rw [hs] at h; simp at h
        | some r =>
          rw [hs] at h
          dsimp only at h
          by_cases hne : r ≠ c.address
          · rw [if_pos hne] at h; simp at h
          · rw [if_neg hne] at h
            have hstore : store' = markUsed store nonce := by
              exact (Prod.mk.injEq _ _ _ _ ▸ h).1.symm
            constructor
            · refine ⟨c, rfl, by simpa using hu, ?_⟩
              rw [hstore, lookupNonce_markUsed_self, hl]
              rfl
            · intro recover' message' signature' now'
              unfold verify_nonce_and_signature
              rw [hstore, lookupNonce_markUsed_self, hl]
              simp

/-- Witness for C1: a concrete successful consume of nonce `n1` marks it
used, and a second attempt on the resulting store observes `AlreadyUsed`. -/
theorem consumed_challenge_replay_rejected_witness :
    verify_nonce_and_signature recoverDemo "m" "goodsig" "n1" 10 storeDemo
      = ([("n1", ⟨"0xab", 0, true, "m"⟩)], VerifyResult.ok "0xab") ∧
    verify_nonce_and_signature recoverDemo "other message" "goodsig" "n1" 99
        [("n1", ⟨"0xab", 0, true, "m"⟩)]
      = ([("n1", ⟨"0xab", 0, true, "m"⟩)], VerifyResult.nonceAlreadyUsed) :=
  ⟨by decide,
   (consumed_challenge_replay_rejected recoverDemo "m" "goodsig" "n1" 10 storeDemo
      [("n1", ⟨"0xab", 0, true, "m"⟩)] "0xab" (by decide)).2
     recoverDemo "other message" "goodsig" 99⟩

/-- Claim C2 (corrected) — counterexample. The code never compares the nonce
embedded in the submitted message text with the presented token: here the
submitted message embeds nonce `deadbeef` while the presented token is
`n1` (and the message differs from the stored challenge text), yet, the
signature over that alien message recovering to the bound address,
verification succeeds instead of failing. -/
theorem message_embedded_nonce_unchecked_cex :
    ("deadbeef" ≠ "n1") ∧
    attackerMessage ≠ create_siwe_message "0xAB" "n1" timestampDemo ∧
    (verify_nonce_and_signature recoverC2 attackerMessage
        "sig-over-attacker-message" "n1" 10 storeC2).2 = VerifyResult.ok "0xab" := by
  refine ⟨by decide, by decide, by decide⟩

/-- Claim C2 (corrected) — amended. Verification depends on the submitted
message text only through signature recovery: if two messages recover to
the same signer under the same signature, `verify` treats them
identically. In particular the embedded nonce is never checked against the
stored token. -/
theorem verify_depends_only_on_recovered_signer
    (recover : String → String → Option String)
    (m1 m2 signature nonce : String) (now : Nat) (store : NonceStore)
    (h : recover m1 signature = recover m2 signature) :
    verify_nonce_and_signature recover m1 signature nonce now store
      = verify_nonce_and_signature recover m2 signature nonce now store := by
  unfold verify_nonce_and_signature verify_signature
  rw [h]

/-- Witness for the amended C2 at a concrete pair of messages. -/
theorem verify_depends_only_on_recovered_signer_witness :
    verify_nonce_and_signature recoverDemo "message A" "goodsig" "n1" 10 storeDemo
      = verify_nonce_and_signature recoverDemo "message B" "goodsig" "n1" 10 storeDemo :=
  verify_depends_only_on_recovered_signer recoverDemo "message A" "message B"
    "goodsig" "n1" 10 storeDemo rfl

/-- Claim C3 (corrected) — counterexample. A found, unused, unexpired
challenge whose signature fails recovery is NOT consumed: the first call
fails with `InvalidSignature` leaving the store unchanged, and a second
call with the same nonce and a good signature succeeds. -/
theorem failed_verification_retry_succeeds_cex :
    verify_nonce_and_signature recoverDemo "m" "badsig" "n1" 10 storeDemo
      = (storeDemo, VerifyResult.invalidSignature) ∧
    (verify_nonce_and_signature recoverDemo "m" "goodsig" "n1" 10
        (verify_nonce_and_signature recoverDemo "m" "badsig" "n1" 10 storeDemo).1).2
      = VerifyResult.ok "0xab" := by
  refine ⟨by decide, by decide⟩

/-- Claim C3 (corrected) — amended. When a verify attempt fails at
signature recovery or at the address comparison, the store is left
completely unchanged — the challenge is neither marked used nor deleted,
so the same nonce remains retryable until it expires. -/
theorem failed_signature_leaves_challenge_unconsumed
    (recover : String → String → Option String)
    (message signature nonce : String) (now : Nat) (store : NonceStore)
    (h : (verify_nonce_and_signature recover message signature nonce now store).2
          = VerifyResult.invalidSignature
        ∨ ∃ e g, (verify_nonce_and_signature recover message signature nonce now store).2
          = VerifyResult.addressMismatch e g) :
    (verify_nonce_and_signature recover message signature nonce now store).1 = store := by
  rcases verify_cases recover message signature nonce now store with
    hc | hc | hc | hc | ⟨e, g, hc⟩ | ⟨a, hc⟩ <;> rw [hc] at h ⊢ <;> simp at h ⊢

/-- Witness for the amended C3 at a concrete failing signature. -/
theorem failed_signature_leaves_challenge_unconsumed_witness :
    (verify_nonce_and_signature recoverDemo "m" "badsig" "n1" 10 storeDemo).1
      = storeDemo :=
  failed_signature_leaves_challenge_unconsumed recoverDemo "m" "badsig" "n1" 10
    storeDemo (Or.inl (by decide))

/-- Claim C4 (confirmed). Round-trip: for any syntactically valid address,
`generate_nonce` followed immediately by `verify_nonce_and_signature` on
the returned message and nonce, with a signature whose recovered signer is
that address (up to case), succeeds and returns the address lower-cased. -/
theorem issue_then_verify_roundtrip
    (address nonce timestamp signature a : String) (now : Nat)
    (store : NonceStore) (recover : String → String → Option String)
    (_hvalid : validate_eth_address address = true)
    (hrec : recover (generate_nonce address nonce timestamp now store).2.message
              signature = some a)
    (hkey : pyLower a = pyLower address) :
    verify_nonce_and_signature recover
        (generate_nonce address nonce timestamp now store).2.message signature
        (generate_nonce address nonce timestamp now store).2.nonce now
        (generate_nonce address nonce timestamp now store).1
      = (markUsed (generate_nonce address nonce timestamp now store).1 nonce,
         VerifyResult.ok (pyLower address)) := by
  simp only [generate_nonce] at hrec ⊢
  unfold verify_nonce_and_signature
  rw [lookupNonce_insertNonce_self]
  dsimp only
  rw [if_neg (by simp)]
  rw [if_neg (by simp)]
  unfold verify_signature
  rw [hrec]
  dsimp only
  rw [hkey]
  rw [if_neg (by simp)]

/-- Witness for C4 at a concrete valid mixed-case address. -/
theorem issue_then_verify_roundtrip_witness :
    validate_eth_address addressDemo = true ∧
    verify_nonce_and_signature recoverC4
        (generate_nonce addressDemo "6e6f" timestampDemo 5 []).2.message "sig-c4"
        (generate_nonce addressDemo "6e6f" timestampDemo 5 []).2.nonce 5
        (generate_nonce addressDemo "6e6f" timestampDemo 5 []).1
      = (markUsed (generate_nonce addressDemo "6e6f" timestampDemo 5 []).1 "6e6f",
         VerifyResult.ok (pyLower addressDemo)) :=
  ⟨by decide,
   issue_then_verify_roundtrip addressDemo "6e6f" timestampDemo "sig-c4"
     addressDemo 5 [] recoverC4 (by decide) (by decide) rfl⟩

/-- Claim C5 (corrected) — counterexample. At an age exactly equal to the
TTL (310 - 10 = 300 = `NONCE_EXPIRY_SECONDS`), the claim requires failure
with `Expired` and deletion, but the code's strict comparison
(`age > NONCE_EXPIRY_SECONDS`) lets the verification succeed and consume
the challenge instead. -/
theorem expiry_boundary_at_ttl_cex :
    (310 : Nat) - 10 = NONCE_EXPIRY_SECONDS ∧
    verify_nonce_and_signature recoverDemo "m" "goodsig" "n1" 310
        [("n1", ⟨"0xab", 10, false, "m"⟩)]
      = ([("n1", ⟨"0xab", 10, true, "m"⟩)], VerifyResult.ok "0xab") := by
  refine ⟨by decide, by decide⟩

/-- Claim C5 (corrected) — amended. A found, unused challenge whose age is
STRICTLY greater than the TTL fails with `Expired` regardless of message,
signature or oracle, and is deleted from the store as a side effect of
that failing call. -/
theorem strictly_expired_challenge_rejected_and_deleted
    (recover : String → String → Option String)
    (message signature nonce : String) (now : Nat) (store : NonceStore)
    (c : Challenge)
    (hl : lookupNonce store nonce = some c)
    (hu : c.used = false)
    (he : now - c.created_at > NONCE_EXPIRY_SECONDS) :
    verify_nonce_and_signature recover message signature nonce now store
      = (eraseNonce store nonce, VerifyResult.nonceExpired) ∧
    lookupNonce (verify_nonce_and_signature recover message signature nonce now store).1
        nonce = none := by
  have h1 : verify_nonce_and_signature recover message signature nonce now store
      = (eraseNonce store nonce, VerifyResult.nonceExpired) := by
    unfold verify_nonce_and_signature
    rw [hl]
    dsimp only
    rw [if_neg (by simp [hu]), if_pos he]
  exact ⟨h1, by rw [h1]; exact lookupNonce_eraseNonce_self store nonce⟩

/-- Witness for the amended C5 at age 1000 seconds. -/
theorem strictly_expired_challenge_rejected_and_deleted_witness :
    verify_nonce_and_signature recoverDemo "m" "goodsig" "n1" 1000 storeDemo
      = (eraseNonce storeDemo "n1", VerifyResult.nonceExpired) ∧
    lookupNonce (verify_nonce_and_signature recoverDemo "m" "goodsig" "n1" 1000
        storeDemo).1 "n1" = none :=
  strictly_expired_challenge_rejected_and_deleted recoverDemo "m" "goodsig" "n1"
    1000 storeDemo ⟨"0xab", 0, false, "m"⟩ (by decide) rfl (by decide)

/-- Claim C6 (confirmed). On a found, unused, unexpired challenge bound to
`addr0` (stored lower-cased) with successful recovery of signer `a`, the
comparison is between the lower-cased forms: a genuine mismatch fails with
`AddressMismatch` and never silently succeeds, while a difference only in
letter case is not a mismatch and verification succeeds. -/
theorem address_match_case_insensitive
    (recover : String → String → Option String)
    (message signature nonce addr0 a : String) (now : Nat) (store : NonceStore)
    (c : Challenge)
    (hl : lookupNonce store nonce = some c)
    (hu : c.used = false)
    (he : ¬ (now - c.created_at > NONCE_EXPIRY_SECONDS))
    (hrec : recover message signature = some a)
    (hbound : c.address = pyLower addr0) :
    (pyLower a ≠ pyLower addr0 →
      verify_nonce_and_signature recover message signature nonce now store
        = (store, VerifyResult.addressMismatch (pyLower addr0) (pyLower a))) ∧
    (pyLower a = pyLower addr0 →
      verify_nonce_and_signature recover message signature nonce now store
        = (markUsed store nonce, VerifyResult.ok (pyLower a))) := by
  unfold verify_nonce_and_signature verify_signature
  rw [hl, hrec]
  dsimp only
  rw [if_neg (by simp [hu]), if_neg he, hbound]
  constructor
  · intro hne
    rw [if_pos hne]
  · intro heq
    rw [if_neg (by simp [heq])]

/-- Witness for C6: recovered signer `0xCD` against a challenge bound to
`0xAB` fails with `AddressMismatch`. -/
theorem address_match_case_insensitive_witness :
    verify_nonce_and_signature recoverC6 "m" "sig-c6" "n1" 10 storeDemo
      = (storeDemo, VerifyResult.addressMismatch (pyLower "0xAB") (pyLower "0xCD")) :=
  (address_match_case_insensitive recoverC6 "m" "sig-c6" "n1" "0xAB" "0xCD" 10
      storeDemo ⟨"0xab", 0, false, "m"⟩ (by decide) rfl (by decide) (by decide)
      (by decide)).1 (by decide)

/-- Claim C7 (corrected) — counterexample. `verify_jwt_token` maps an
expired token and a structurally invalid token to the very same outcome
`none`: the two failure modes are not distinguishable in its result, so it
does not return a distinct `Expired` outcome. -/
theorem expired_vs_invalid_token_indistinguishable_cex :
    decodeDemo "expired-token" = JwtDecodeOutcome.expiredSignatureError ∧
    decodeDemo "tampered-token" = JwtDecodeOutcome.invalidTokenError ∧
    verify_jwt_token decodeDemo "expired-token"
      = verify_jwt_token decodeDemo "tampered-token" ∧
    verify_jwt_token decodeDemo "expired-token" = none := by
  refine ⟨by decide, by decide, by decide, by decide⟩

/-- Claim C7 (corrected) — amended. The validator always returns a typed
outcome (never an exception): exactly the payload on a successful decode,
and `none` both when the token is past its expiry and on any
signature/structural failure — the two failures collapse to the same
`none`. -/
theorem validate_token_total_typed_outcome
    (decode : String → JwtDecodeOutcome) (token : String) :
    (∀ p, verify_jwt_token decode token = some p ↔ decode token = JwtDecodeOutcome.ok p) ∧
    (decode token = JwtDecodeOutcome.expiredSignatureError →
        verify_jwt_token decode token = none) ∧
    (decode token = JwtDecodeOutcome.invalidTokenError →
        verify_jwt_token decode token = none) := by
  unfold verify_jwt_token
  cases h : decode token <;> simp

/-- Witness for the amended C7 at the three concrete decode outcomes. -/
theorem validate_token_total_typed_outcome_witness :
    (verify_jwt_token decodeDemo "valid-token" = some ⟨[("address", "0xab")]⟩ ↔
      decodeDemo "valid-token" = JwtDecodeOutcome.ok ⟨[("address", "0xab")]⟩) ∧
    verify_jwt_token decodeDemo "expired-token" = none ∧
    verify_jwt_token decodeDemo "garbage" = none :=
  ⟨(validate_token_total_typed_outcome decodeDemo "valid-token").1
      ⟨[("address", "0xab")]⟩,
   (validate_token_total_typed_outcome decodeDemo "expired-token").2.1 (by decide),
   (validate_token_total_typed_outcome decodeDemo "garbage").2.2 (by decide)⟩

/-- Claim C8 (corrected) — counterexample. The lock-free code admits an
interleaving in which two concurrent verify calls for the same nonce both
pass the used check before either marks the nonce: under the schedule
T1-check, T2-check, T1-mark, T2-mark both calls finish with success —
both observed `used = false`, violating at-most-one-succeeds. -/
theorem concurrent_consume_both_succeed_cex :
    runSchedule recoverDemo 10
        ⟨⟨"m", "goodsig", "n1", VPhase.start⟩, ⟨"m", "goodsig", "n1", VPhase.start⟩,
          storeDemo⟩ [false, true, false, true]
      = ⟨⟨"m", "goodsig", "n1", VPhase.finished (VerifyResult.ok "0xab")⟩,
         ⟨"m", "goodsig", "n1", VPhase.finished (VerifyResult.ok "0xab")⟩,
         [("n1", ⟨"0xab", 0, true, "m"⟩)]⟩ := by decide

/-- Claim C8 (corrected) — amended. When the two calls do not interleave
(the sequential schedule: the first call runs to completion, then the
second), at most one succeeds: if the first finishes with success, the
second observes `AlreadyUsed`. The at-most-one guarantee therefore holds
only without preemption between the check and the mark; the code itself
takes no lock. -/
theorem sequential_consume_at_most_one_success
    (recover : String → String → Option String) (now : Nat)
    (m1 s1 m2 s2 nonce : String) (store : NonceStore) (a : String)
    (h : (runSchedule recover now
            ⟨⟨m1, s1, nonce, VPhase.start⟩, ⟨m2, s2, nonce, VPhase.start⟩, store⟩
            [false, false, true, true]).t1.phase
          = VPhase.finished (VerifyResult.ok a)) :
    (runSchedule recover now
        ⟨⟨m1, s1, nonce, VPhase.start⟩, ⟨m2, s2, nonce, VPhase.start⟩, store⟩
        [false, false, true, true]).t2.phase
      = VPhase.finished VerifyResult.nonceAlreadyUsed := by
  simp only [runSchedule] at h ⊢
  cases hl : lookupNonce store nonce with
  | none =>
    have st1 : threadStep recover now ⟨m1, s1, nonce, VPhase.start⟩ store
        = (⟨m1, s1, nonce, VPhase.finished VerifyResult.invalidOrExpiredNonce⟩, store) := by
      unfold threadStep
      dsimp only
      rw [hl]
    simp only [schedStep_false, schedStep_true, st1, threadStep_finished] at h
    simp at h
  | some c =>
    by_cases hu : c.used = true
    · have st1 : threadStep recover now ⟨m1, s1, nonce, VPhase.start⟩ store
          = (⟨m1, s1, nonce, VPhase.finished VerifyResult.nonceAlreadyUsed⟩, store) := by
        unfold threadStep
        dsimp only
        rw [hl]
        dsimp only
        rw [if_pos hu]
      simp only [schedStep_false, schedStep_true, st1, threadStep_finished] at h
      simp at h
    · by_cases he : now - c.created_at > NONCE_EXPIRY_SECONDS
      · have st1 : threadStep recover now ⟨m1, s1, nonce, VPhase.start⟩ store
            = (⟨m1, s1, nonce, VPhase.finished VerifyResult.nonceExpired⟩,
               eraseNonce store nonce) := by
          unfold threadStep
          dsimp only
          rw [hl]
          dsimp only
          rw [if_neg hu, if_pos he]
        simp only [schedStep_false, schedStep_true, st1, threadStep_finished] at h
        simp at h
      · have st1 : threadStep recover now ⟨m1, s1, nonce, VPhase.start⟩ store
            = (⟨m1, s1, nonce, VPhase.checked c⟩, store) := by
          unfold threadStep
          dsimp only
          rw [hl]
          dsimp only
          rw [if_neg hu, if_neg he]
        cases hs : verify_signature recover m1 s1 with
        | none =>
          have st2 : threadStep recover now ⟨m1, s1, nonce, VPhase.checked c⟩ store
              = (⟨m1, s1, nonce, VPhase.finished VerifyResult.invalidSignature⟩, store) := by
            unfold threadStep
            dsimp only
            rw [hs]
          simp only [schedStep_false, schedStep_true, st1, st2, threadStep_finished] at h
          simp at h
        | some r =>
          by_cases hne : r = c.address
          · have st2 : threadStep recover now ⟨m1, s1, nonce, VPhase.checked c⟩ store
                = (⟨m1, s1, nonce, VPhase.finished (VerifyResult.ok r)⟩,
                   markUsed store nonce) := by
              unfold threadStep
              dsimp only
              rw [hs]
              dsimp only
              rw [if_neg (by simp [hne])]
            have st3 : threadStep recover now ⟨m2, s2, nonce, VPhase.start⟩
                (markUsed store nonce)
                = (⟨m2, s2, nonce, VPhase.finished VerifyResult.nonceAlreadyUsed⟩,
                   markUsed store nonce) := by
              unfold threadStep
              dsimp only
              rw [lookupNonce_markUsed_self, hl]
              simp only [Option.map_some']
              simp
            simp only [schedStep_false, schedStep_true, st1, st2, st3,
              threadStep_finished]
          · have st2 : threadStep recover now ⟨m1, s1, nonce, VPhase.checked c⟩ store
                = (⟨m1, s1, nonce,
                     VPhase.finished (VerifyResult.addressMismatch c.address r)⟩, store) := by
              unfold threadStep
              dsimp only
              rw [hs]
              dsimp only
              rw [if_pos (by simp [hne])]
            simp only [schedStep_false, schedStep_true, st1, st2, threadStep_finished] at h
            simp at h

/-- Witness for the amended C8 at a concrete sequential run. -/
theorem sequential_consume_at_most_one_success_witness :
    (runSchedule recoverDemo 10
        ⟨⟨"m", "goodsig", "n1", VPhase.start⟩, ⟨"m", "goodsig", "n1", VPhase.start⟩,
          storeDemo⟩ [false, false, true, true]).t2.phase
      = VPhase.finished VerifyResult.nonceAlreadyUsed :=
  sequential_consume_at_most_one_success recoverDemo 10 "m" "goodsig" "m" "goodsig"
    "n1" storeDemo "0xab" (by decide)

/-- Claim C9 (confirmed). The middleware pre-pass always forwards the
request to `call_next` and returns its response — it never produces a
rejection of its own: a malformed Authorization header (extraction error)
or a failed token verification only leaves the initial unauthenticated
state. And `get_optional_user` always returns (never raises), giving
either the user value or the explicit absence marker. -/
theorem prepass_never_rejects_and_optional_never_fails
    {R : Type} (decode : String → JwtDecodeOutcome)
    (authorization : Option String) (call_next : RequestState → R) :
    dispatch decode authorization call_next
      = call_next (dispatchState decode authorization) ∧
    (∀ auth d, extract_bearer_token (some auth) = Except.error d →
        dispatchState decode (some auth) = initialRequestState) ∧
    (∀ auth token, extract_bearer_token (some auth) = Except.ok token →
        verify_jwt_token decode token = none →
        dispatchState decode (some auth) = initialRequestState) ∧
    (∀ state : Option RequestState, ∃ v, get_optional_user state = Except.ok v) := by
  refine ⟨rfl, ?_, ?_, ?_⟩
  · intro auth d hme
    unfold dispatchState
    dsimp only
    by_cases ha : auth = ""
    · rw [if_pos ha]
    · rw [if_neg ha, hme]
  · intro auth token hok hv
    unfold dispatchState
    dsimp only
    by_cases ha : auth = ""
    · rw [if_pos ha]
    · rw [if_neg ha, hok]
      dsimp only
      rw [hv]
  · intro state
    cases state with
    | none => exact ⟨none, rfl⟩
    | some st =>
      by_cases hA : st.is_authenticated = true
      · refine ⟨some ⟨st.wallet_address, st.token_payload⟩, ?_⟩
        unfold get_optional_user
        dsimp only
        rw [if_pos hA]
      · refine ⟨none, ?_⟩
        unfold get_optional_user
        dsimp only
        rw [if_neg hA]

/-- Witness for C9: a malformed header and an expired bearer token both
leave the unauthenticated state while the request goes through, and the
optional dependency returns the absence marker. -/
theorem prepass_never_rejects_and_optional_never_fails_witness :
    dispatch decodeDemo (some "Bearer valid-token") (fun st => st)
      = dispatchState decodeDemo (some "Bearer valid-token") ∧
    dispatchState decodeDemo (some "NotBearer") = initialRequestState ∧
    dispatchState decodeDemo (some "Bearer expired-token") = initialRequestState ∧
    get_optional_user (some initialRequestState) = Except.ok none :=
  ⟨(prepass_never_rejects_and_optional_never_fails decodeDemo
      (some "Bearer valid-token") (fun st => st)).1,
   (prepass_never_rejects_and_optional_never_fails decodeDemo
      (some "NotBearer") (fun st => st)).2.1 "NotBearer"
     "Invalid authorization header format. Use: Bearer <token>" rfl,
   (prepass_never_rejects_and_optional_never_fails decodeDemo
      (some "Bearer expired-token") (fun st => st)).2.2.1 "Bearer expired-token"
     "expired-token" rfl (by decide),
   rfl⟩

/-- Claim C10 (confirmed). `generate_nonce` has no precondition on its
address argument: for any input string it returns a message that embeds
the input verbatim between the fixed header and tail, and stores a
challenge whose bound address is exactly the lower-casing of the input;
consequently the all-bound-addresses-lower-cased invariant of the store is
preserved by issuance, by the expiry sweep and by verification. -/
theorem nonce_store_lowercase_invariant :
    (∀ address nonce timestamp : String, ∀ now : Nat, ∀ store : NonceStore,
        (generate_nonce address nonce timestamp now store).2.message
          = siweMessageHeader ++ address ++ siweMessageTail nonce timestamp ∧
        lookupNonce (generate_nonce address nonce timestamp now store).1 nonce
          = some ⟨pyLower address, now, false,
              create_siwe_message address nonce timestamp⟩) ∧
    (∀ address nonce timestamp : String, ∀ now : Nat, ∀ store : NonceStore,
        AddressNormalized store →
        AddressNormalized (generate_nonce address nonce timestamp now store).1) ∧
    (∀ now : Nat, ∀ store : NonceStore, AddressNormalized store →
        AddressNormalized (cleanup_expired_nonces now store)) ∧
    (∀ recover : String → String → Option String,
      ∀ message signature nonce : String, ∀ now : Nat, ∀ store : NonceStore,
        AddressNormalized store →
        AddressNormalized
          (verify_nonce_and_signature recover message signature nonce now store).1) := by
  refine ⟨?_, ?_, ?_, ?_⟩
  · intro address nonce timestamp now store
    constructor
    · simp only [generate_nonce]
      simp [create_siwe_message, siweMessageHeader, siweMessageTail,
        String.append_assoc]
    · simp only [generate_nonce]
      exact lookupNonce_insertNonce_self _ _ _
  · intro address nonce timestamp now store hN
    simp only [generate_nonce, insertNonce]
    intro p hp
    rcases List.mem_cons.mp hp with h | h
    · exact ⟨address, by rw [h]⟩
    · exact hN p (mem_cleanup_expired_nonces now store p
        (mem_eraseNonce _ nonce p h))
  · intro now store hN p hp
    exact hN p (mem_cleanup_expired_nonces now store p hp)
  · intro recover message signature nonce now store hN
    rcases verify_cases recover message signature nonce now store with
      hc | hc | hc | hc | ⟨e, g, hc⟩ | ⟨a, hc⟩ <;> rw [hc]
    · exact hN
    · exact hN
    · intro p hp
      exact hN p (mem_eraseNonce store nonce p hp)
    · exact hN
    · exact hN
    · intro p hp
      obtain ⟨q, hq, hqa⟩ := mem_markUsed_address store nonce p hp
      obtain ⟨t, ht⟩ := hN q hq
      exact ⟨t, by rw [hqa, ht]⟩

/-- Witness for C10: the invariant instantiated on a concrete store and a
concrete mixed-case address. -/
theorem nonce_store_lowercase_invariant_witness :
    (generate_nonce "0xAB" "n2" timestampDemo 7 storeDemo).2.message
      = siweMessageHeader ++ "0xAB" ++ siweMessageTail "n2" timestampDemo ∧
    lookupNonce (generate_nonce "0xAB" "n2" timestampDemo 7 storeDemo).1 "n2"
      = some ⟨pyLower "0xAB", 7, false,
          create_siwe_message "0xAB" "n2" timestampDemo⟩ ∧
    AddressNormalized
      (verify_nonce_and_signature recoverDemo "m" "goodsig" "n1" 10 storeDemo).1 :=
  ⟨(nonce_store_lowercase_invariant.1 "0xAB" "n2" timestampDemo 7 storeDemo).1,
   (nonce_store_lowercase_invariant.1 "0xAB" "n2" timestampDemo 7 storeDemo).2,
   nonce_store_lowercase_invariant.2.2.2 recoverDemo "m" "goodsig" "n1" 10 storeDemo
     (by
       intro p hp
       rw [List.mem_singleton.mp hp]
       exact ⟨"0xab", by decide⟩)⟩

end SmartRent
